import Mathlib

/-!
Shallow embedding of the DeepTrust "analyze-media" edge function
(`supabase/functions/analyze-media/index.ts`) and of the pure client-side
helper `computeConsistencyCheck` (the multimodal consistency check component),
together with proofs of the specified properties.

Conventions of the embedding:
* JavaScript numbers are modelled as exact rationals (`ℚ`).
* Absent / `undefined` / `null` JSON fields are modelled as `Option`.
* JavaScript truthiness defaulting (`v || fallback`) is modelled explicitly:
  for numbers `0` is falsy, for strings `""` is falsy, for booleans `false`
  is falsy; arrays and objects are always truthy.  Nullish coalescing
  (`v ?? fallback`) replaces only an absent value.
* `Math.random()` is modelled by an arbitrary stream `rng : ℕ → ℚ` supplied
  to the handler as a parameter.
* String union types of the source are modelled as `String` carrying the
  literal values, except the media type which is a closed three-way branch
  in the handler and is modelled as an inductive type.
-/

/-- JS `v || fallback` on an optional number: `undefined`, `null` and `0` are falsy. -/
def jsOrNum (v : Option ℚ) (fallback : ℚ) : ℚ :=
  match v with
  | none => fallback
  | some x => if x = 0 then fallback else x

/-- JS `v || fallback` on an optional string: `undefined`, `null` and `""` are falsy. -/
def jsOrStr (v : Option String) (fallback : String) : String :=
  match v with
  | none => fallback
  | some s => if s = "" then fallback else s

/-- JS `v || fallback` on an optional boolean: `undefined`, `null` and `false` are falsy. -/
def jsOrBool (v : Option Bool) (fallback : Bool) : Bool :=
  match v with
  | none => fallback
  | some b => b || fallback

/-- JS `v || fallback` on an optional array: an array value is always truthy. -/
def jsOrList (v : Option (List α)) (fallback : List α) : List α :=
  v.getD fallback

/-- Map over a list together with the element index (JS `Array.prototype.map`
with the index argument). -/
def mapWithIndex (f : ℕ → α → β) : ℕ → List α → List β
  | _, [] => []
  | i, x :: xs => f i x :: mapWithIndex f (i + 1) xs

/-- The `"image" | "video" | "audio"` media-type union. -/
inductive MediaType
  | image
  | video
  | audio
  deriving DecidableEq, Repr

/-- One element of the `modalityScores` argument of `computeConsistencyCheck`
(TS inline type `{ modality: string; score: number }`). -/
structure ModalityInput where
  modality : String
  score : ℚ
  deriving DecidableEq, Repr

/-- `MultimodalConsistencyResult` of the source.  `consistencyStatus` carries
one of the literal strings of the TS union
`"consistent" | "partially_consistent" | "inconsistent" | "single_modality" | "not_applicable"`. -/
structure MultimodalConsistencyResult where
  consistencyStatus : String
  visualScore : ℚ
  audioScore : Option ℚ
  disagreement : ℚ
  confidenceModifier : ℚ
  adjustedConfidence : ℚ
  explanation : String
  deriving DecidableEq, Repr

/-- `const LOW_DISAGREEMENT = 0.15`. -/
def LOW_DISAGREEMENT : ℚ := 0.15

/-- `const HIGH_DISAGREEMENT = 0.30`. -/
def HIGH_DISAGREEMENT : ℚ := 0.30

/-- Visual-score extraction shared by both code sites:
`modalityScores?.find(m => m.modality === "visual")?.score ?? trustScore`. -/
def visualScoreOf (trustScore : ℚ) (modalityScores : Option (List ModalityInput)) : ℚ :=
  (((modalityScores.getD []).find? (fun m => m.modality == "visual")).map
    (fun m => m.score)).getD trustScore

/-- Audio-score extraction shared by both code sites:
`modalityScores?.find(m => m.modality === "audio")?.score ?? null`. -/
def audioScoreOf (modalityScores : Option (List ModalityInput)) : Option ℚ :=
  ((modalityScores.getD []).find? (fun m => m.modality == "audio")).map (fun m => m.score)

/-- The status assigned by the disagreement if-chain (both code sites assign
status, modifier and explanation in one three-way branch on `disagreement`). -/
def bandStatus (disagreement : ℚ) : String :=
  if disagreement ≥ HIGH_DISAGREEMENT then "inconsistent"
  else if disagreement ≥ LOW_DISAGREEMENT then "partially_consistent"
  else "consistent"

/-- The confidence modifier assigned by the disagreement if-chain. -/
def bandModifier (disagreement : ℚ) : ℚ :=
  if disagreement ≥ HIGH_DISAGREEMENT then -15
  else if disagreement ≥ LOW_DISAGREEMENT then -7
  else 0

/-- The explanation string assigned by the disagreement if-chain. -/
def bandExplanation (disagreement : ℚ) : String :=
  if disagreement ≥ HIGH_DISAGREEMENT then
    "Audio and visual signals show conflicting authenticity patterns. The system detected significant disagreement between what it sees and hears, requiring cautious interpretation."
  else if disagreement ≥ LOW_DISAGREEMENT then
    "Audio and visual signals show some variation. Minor disagreement detected — the result remains valid but with reduced confidence."
  else
    "Audio and visual signals agree. Both modalities support the same authenticity conclusion."

/-- The `single_modality` record built by both code sites; they differ only in
the expression supplied for `adjustedConfidence` (the client helper clamps the
trust score itself, the edge handler passes its already-clamped trust score). -/
def singleModalityResult (visualScore adjustedConfidence : ℚ) : MultimodalConsistencyResult :=
  { consistencyStatus := "single_modality"
    visualScore := visualScore
    audioScore := none
    disagreement := 0
    confidenceModifier := 0
    adjustedConfidence := adjustedConfidence
    explanation := "Single modality analysis — consistency check not applicable." }

/-- The multi-modal record built by both code sites: normalize both scores to
[0,1], take the absolute difference, and band it. -/
def multiModalResult (trustScore visualScore audioScore : ℚ) : MultimodalConsistencyResult :=
  let visualNormalized := visualScore / 100
  let audioNormalized := audioScore / 100
  let disagreement := |visualNormalized - audioNormalized|
  { consistencyStatus := bandStatus disagreement
    visualScore := visualScore
    audioScore := some audioScore
    disagreement := disagreement
    confidenceModifier := bandModifier disagreement
    adjustedConfidence := min 100 (max 0 (trustScore + bandModifier disagreement))
    explanation := bandExplanation disagreement }

/-- `computeConsistencyCheck` from the client component.  The source guard is
`if (audioScore === null || mediaType === "image")`; here the null test is the
outer `match` and the media-type test the inner `if`, which branches
identically. -/
def computeConsistencyCheck (trustScore : ℚ) (mediaType : MediaType)
    (modalityScores : Option (List ModalityInput)) : MultimodalConsistencyResult :=
  let visualScore := visualScoreOf trustScore modalityScores
  match audioScoreOf modalityScores with
  | none => singleModalityResult visualScore (min 100 (max 0 trustScore))
  | some audioScore =>
    if mediaType = MediaType.image then
      singleModalityResult visualScore (min 100 (max 0 trustScore))
    else
      multiModalResult trustScore visualScore audioScore

/-! ## Data model of the edge handler (`index.ts`)

Output structures mirror the TS interfaces; string unions other than the media
type are carried as `String` literals.  `Raw…` structures model the untyped
JSON object parsed out of the external model's reply: every field may be
absent. -/

/-- `HeatmapRegion` of the source. -/
structure HeatmapRegion where
  x : ℚ
  y : ℚ
  radius : ℚ
  intensity : ℚ
  label : Option String
  deriving DecidableEq, Repr

/-- `AnomalyRegion` of the source; the source field `end` is a Lean keyword and
is rendered `stop`. -/
structure AnomalyRegion where
  start : ℚ
  stop : ℚ
  severity : String
  deriving DecidableEq, Repr

/-- `FrameData` of the source. -/
structure FrameData where
  frameNumber : ℕ
  timestamp : ℚ
  confidence : ℚ
  anomalyType : Option String
  deriving DecidableEq, Repr

/-- `ModalityScore` of the source. -/
structure ModalityScore where
  modality : String
  score : ℚ
  weight : ℚ
  confidence : ℚ
  findings : List String
  deriving DecidableEq, Repr

/-- `GanFingerprints` of the source. -/
structure GanFingerprints where
  detected : Bool
  patterns : List String
  confidence : ℚ
  deriving DecidableEq, Repr

/-- `TextureAnalysis` of the source. -/
structure TextureAnalysis where
  laplacianVariance : String
  smoothnessAnomalies : Bool
  noiseConsistency : String
  deriving DecidableEq, Repr

/-- `MetadataAnalysis` of the source. -/
structure MetadataAnalysis where
  hasMetadata : Bool
  suspicious : Bool
  findings : List String
  deriving DecidableEq, Repr

/-- One entry of `AnalysisResult.observations`. -/
structure Observation where
  type : String
  title : String
  description : String
  deriving DecidableEq, Repr

/-- One entry of `AnalysisResult.robustnessTests`. -/
structure RobustnessTest where
  mode : String
  description : String
  confidence : ℚ
  drift : ℚ
  status : String
  deriving DecidableEq, Repr

/-- `AnalysisResult.graphStats`. -/
structure GraphStats where
  keypointsDetected : ℚ
  edgeConnections : ℚ
  suspiciousNodes : ℚ
  graphCoherence : ℚ
  deriving DecidableEq, Repr

/-- `AnalysisResult` of the source. -/
structure AnalysisResult where
  trustScore : ℚ
  riskLevel : String
  verdict : String
  analysisTime : ℚ
  mediaType : MediaType
  uncertaintyFlag : Bool
  uncertaintyReason : String
  ganFingerprints : GanFingerprints
  textureAnalysis : TextureAnalysis
  metadataAnalysis : MetadataAnalysis
  observations : List Observation
  robustnessTests : List RobustnessTest
  graphStats : GraphStats
  heatmapRegions : List HeatmapRegion
  audioAnomalies : List AnomalyRegion
  frameAnalysis : List FrameData
  modalityScores : List ModalityScore
  multimodalConsistency : MultimodalConsistencyResult
  deriving DecidableEq, Repr

/-- One entry of the raw `modalityBreakdown` object. -/
structure RawModalitySub where
  score : Option ℚ
  confidence : Option ℚ
  findings : Option (List String)
  deriving DecidableEq, Repr

/-- Raw `modalityBreakdown` of the model reply. -/
structure RawModalityBreakdown where
  visual : Option RawModalitySub
  structural : Option RawModalitySub
  audio : Option RawModalitySub
  temporal : Option RawModalitySub
  deriving DecidableEq, Repr

/-- Raw `ganFingerprints` of the model reply. -/
structure RawGanFingerprints where
  detected : Option Bool
  patterns : Option (List String)
  confidence : Option ℚ
  deriving DecidableEq, Repr

/-- Raw `textureAnalysis` of the model reply. -/
structure RawTextureAnalysis where
  laplacianVariance : Option String
  smoothnessAnomalies : Option Bool
  noiseConsistency : Option String
  deriving DecidableEq, Repr

/-- Raw `metadataAnalysis` of the model reply. -/
structure RawMetadataAnalysis where
  hasMetadata : Option Bool
  suspicious : Option Bool
  findings : Option (List String)
  deriving DecidableEq, Repr

/-- Raw `observations` entry of the model reply. -/
structure RawObservation where
  type : Option String
  title : Option String
  description : Option String
  deriving DecidableEq, Repr

/-- Raw `robustnessAnalysis` of the model reply. -/
structure RawRobustnessAnalysis where
  cleanConfidence : Option ℚ
  compressionResilience : Option ℚ
  degradationResilience : Option ℚ
  motionSensitivity : Option ℚ
  noiseTolerance : Option ℚ
  deriving DecidableEq, Repr

/-- Raw `graphStats` of the model reply. -/
structure RawGraphStats where
  keypointsDetected : Option ℚ
  suspiciousNodes : Option ℚ
  graphCoherence : Option ℚ
  deriving DecidableEq, Repr

/-- Raw `heatmapData` entry of the model reply. -/
structure RawHeatmapRegion where
  x : Option ℚ
  y : Option ℚ
  radius : Option ℚ
  intensity : Option ℚ
  label : Option String
  deriving DecidableEq, Repr

/-- Raw `anomalyRegions` entry of the model reply (`end` rendered `stop`). -/
structure RawAnomalyRegion where
  start : Option ℚ
  stop : Option ℚ
  severity : Option String
  deriving DecidableEq, Repr

/-- Raw `temporalAnomalies` entry of the model reply. -/
structure RawTemporalAnomaly where
  timestamp : Option ℚ
  type : Option String
  severity : Option ℚ
  deriving DecidableEq, Repr

/-- Raw `audioFindings` of the model reply. -/
structure RawAudioFindings where
  hasAudio : Option Bool
  anomalyRegions : Option (List RawAnomalyRegion)
  voiceConsistency : Option ℚ
  backgroundNoise : Option String
  deriving DecidableEq, Repr

/-- Raw `temporalAnalysis` of the model reply. -/
structure RawTemporalAnalysis where
  frameConsistency : Option ℚ
  motionNaturalness : Option ℚ
  temporalAnomalies : Option (List RawTemporalAnomaly)
  deriving DecidableEq, Repr

/-- The object parsed out of the external model's reply (`analysisData`). -/
structure AnalysisData where
  trustScore : Option ℚ
  verdict : Option String
  uncertaintyFlag : Option Bool
  uncertaintyReason : Option String
  ganFingerprints : Option RawGanFingerprints
  textureAnalysis : Option RawTextureAnalysis
  metadataAnalysis : Option RawMetadataAnalysis
  observations : Option (List RawObservation)
  robustnessAnalysis : Option RawRobustnessAnalysis
  graphStats : Option RawGraphStats
  heatmapData : Option (List RawHeatmapRegion)
  audioFindings : Option RawAudioFindings
  temporalAnalysis : Option RawTemporalAnalysis
  modalityBreakdown : Option RawModalityBreakdown
  deriving DecidableEq, Repr

/-- A model reply with every field absent. -/
def emptyAnalysisData : AnalysisData :=
  { trustScore := none, verdict := none, uncertaintyFlag := none,
    uncertaintyReason := none, ganFingerprints := none, textureAnalysis := none,
    metadataAnalysis := none, observations := none, robustnessAnalysis := none,
    graphStats := none, heatmapData := none, audioFindings := none,
    temporalAnalysis := none, modalityBreakdown := none }

/-! ## Normalization pipeline of the edge handler (index.ts lines 336-558) -/

/-- `heatmapRegions` processing (lines 336-342). -/
def heatmapRegionsOf (d : AnalysisData) : List HeatmapRegion :=
  (jsOrList d.heatmapData []).map (fun h =>
    { x := jsOrNum h.x 200
      y := jsOrNum h.y 140
      radius := jsOrNum h.radius 30
      intensity := min 1 (max 0 (jsOrNum h.intensity 0.3))
      label := h.label })

/-- `audioAnomalies` processing (lines 345-349). -/
def audioAnomaliesOf (d : AnalysisData) : List AnomalyRegion :=
  (jsOrList (d.audioFindings.bind (fun a => a.anomalyRegions)) []).map (fun a =>
    { start := jsOrNum a.start 0
      stop := jsOrNum a.stop 0.1
      severity := jsOrStr a.severity "low" })

/-- `frameAnalysis` built from `temporalAnalysis.temporalAnomalies`
(lines 352-357).  `t.type || null` maps an empty string to `null`. -/
def initialFrameAnalysis (d : AnalysisData) : List FrameData :=
  mapWithIndex (fun idx t =>
    { frameNumber := idx
      timestamp := jsOrNum t.timestamp ((idx : ℚ) * 0.5)
      confidence := 100 - (jsOrNum t.severity 0.5) * 50
      anomalyType :=
        match t.type with
        | none => none
        | some s => if s = "" then none else some s })
    0 (jsOrList (d.temporalAnalysis.bind (fun ta => ta.temporalAnomalies)) [])

/-- The frame back-fill loop (lines 362-373): for `i` in `0..29`, push a
synthetic frame unless one with that frame number is already present.
`Math.random()` of the pushed frame is modelled by `rng i`. -/
def fillFrames (baseConfidence : ℚ) (rng : ℕ → ℚ) (frames : List FrameData) : List FrameData :=
  (List.range 30).foldl (fun acc i =>
    if acc.any (fun f => f.frameNumber == i) then acc
    else acc ++ [{ frameNumber := i
                   timestamp := (i : ℚ) * 0.33
                   confidence := min 100 (max 30 (baseConfidence + (rng i - 0.5) * 20))
                   anomalyType := none }]) frames

/-- Insertion into a list sorted by `frameNumber` (the comparator
`(a, b) => a.frameNumber - b.frameNumber` of line 374). -/
def insertFrame (f : FrameData) : List FrameData → List FrameData
  | [] => [f]
  | g :: gs => if f.frameNumber ≤ g.frameNumber then f :: g :: gs else g :: insertFrame f gs

/-- Sorting by `frameNumber` (line 374). -/
def sortFrames : List FrameData → List FrameData
  | [] => []
  | f :: fs => insertFrame f (sortFrames fs)

/-- `frameAnalysis` (lines 352-375): the back fill and the sort run only when
fewer than 10 frames came from the model. -/
def frameAnalysisOf (d : AnalysisData) (rng : ℕ → ℚ) : List FrameData :=
  let frames := initialFrameAnalysis d
  if frames.length < 10 then
    sortFrames (fillFrames (jsOrNum d.trustScore 75) rng frames)
  else frames

/-- `modalityScores` (lines 378-416): visual and structural always, audio for
video/audio media, temporal for video. -/
def modalityScoresOf (d : AnalysisData) (detectedMediaType : MediaType) : List ModalityScore :=
  let mbVisual := d.modalityBreakdown.bind (fun m => m.visual)
  let mbStructural := d.modalityBreakdown.bind (fun m => m.structural)
  let mbAudio := d.modalityBreakdown.bind (fun m => m.audio)
  let mbTemporal := d.modalityBreakdown.bind (fun m => m.temporal)
  [ { modality := "visual"
      score := jsOrNum (mbVisual.bind (fun v => v.score)) (jsOrNum d.trustScore 75)
      weight := 0.35
      confidence := jsOrNum (mbVisual.bind (fun v => v.confidence)) 90
      findings := jsOrList (mbVisual.bind (fun v => v.findings)) ["Visual analysis completed"] },
    { modality := "structural"
      score := jsOrNum (mbStructural.bind (fun v => v.score))
        (jsOrNum (d.graphStats.bind (fun g => g.graphCoherence)) 80)
      weight := 0.25
      confidence := jsOrNum (mbStructural.bind (fun v => v.confidence)) 88
      findings := jsOrList (mbStructural.bind (fun v => v.findings)) ["Structural analysis completed"] } ]
  ++ (if detectedMediaType ≠ MediaType.image then
    [ { modality := "audio"
        score := jsOrNum (mbAudio.bind (fun v => v.score))
          (jsOrNum (d.audioFindings.bind (fun a => a.voiceConsistency)) 80)
        weight := 0.20
        confidence := jsOrNum (mbAudio.bind (fun v => v.confidence)) 85
        findings := jsOrList (mbAudio.bind (fun v => v.findings)) ["Audio analysis completed"] } ]
    else [])
  ++ (if detectedMediaType = MediaType.video then
    [ { modality := "temporal"
        score := jsOrNum (mbTemporal.bind (fun v => v.score))
          (jsOrNum (d.temporalAnalysis.bind (fun ta => ta.frameConsistency)) 82)
        weight := 0.20
        confidence := jsOrNum (mbTemporal.bind (fun v => v.confidence)) 87
        findings := jsOrList (mbTemporal.bind (fun v => v.findings)) ["Temporal analysis completed"] } ]
    else [])

/-- `const trustScore = Math.min(100, Math.max(0, analysisData.trustScore || 50))`
(line 419). -/
def trustScoreOf (d : AnalysisData) : ℚ :=
  min 100 (max 0 (jsOrNum d.trustScore 50))

/-- `uncertaintyFlag` (line 420). -/
def uncertaintyFlagOf (d : AnalysisData) : Bool :=
  d.uncertaintyFlag.getD false ||
    (decide (40 ≤ trustScoreOf d) && decide (trustScoreOf d ≤ 70))

/-- The multimodal consistency check module inlined in the handler
(lines 427-479).  `trustScore` is the handler's already-clamped trust score;
unlike the client helper, the `single_modality` branch stores it unclamped.
The source guard `audioScore === null || detectedMediaType === "image"` is
split into the `match` and the inner `if`, which branches identically. -/
def multimodalConsistencyOf (trustScore : ℚ) (detectedMediaType : MediaType)
    (modalityScores : List ModalityScore) : MultimodalConsistencyResult :=
  let visualScore :=
    ((modalityScores.find? (fun m => m.modality == "visual")).map (fun m => m.score)).getD trustScore
  match (modalityScores.find? (fun m => m.modality == "audio")).map (fun m => m.score) with
  | none => singleModalityResult visualScore trustScore
  | some audioScore =>
    if detectedMediaType = MediaType.image then
      singleModalityResult visualScore trustScore
    else
      multiModalResult trustScore visualScore audioScore

/-- `riskLevel` derivation (line 484). -/
def riskLevelOf (trustScore : ℚ) : String :=
  if trustScore ≥ 70 then "low"
  else if trustScore ≥ 40 then "medium"
  else "high"

/-- `observations` (lines 505-509): first 8 entries, defaulted fields. -/
def observationsOf (d : AnalysisData) : List Observation :=
  ((jsOrList d.observations []).take 8).map (fun obs =>
    { type := jsOrStr obs.type "neutral"
      title := jsOrStr obs.title "Observation"
      description := jsOrStr obs.description "" })

/-- `robustnessTests` (lines 510-546): five fixed rows. -/
def robustnessTestsOf (d : AnalysisData) : List RobustnessTest :=
  let ra := d.robustnessAnalysis
  let cleanConfidence := jsOrNum (ra.bind (fun r => r.cleanConfidence)) 85
  let compression := jsOrNum (ra.bind (fun r => r.compressionResilience)) (-5)
  let degradation := jsOrNum (ra.bind (fun r => r.degradationResilience)) (-8)
  let motion := jsOrNum (ra.bind (fun r => r.motionSensitivity)) (-18)
  let noise := jsOrNum (ra.bind (fun r => r.noiseTolerance)) (-7)
  [ { mode := "Clean"
      description := "Baseline reference analysis"
      confidence := jsOrNum (ra.bind (fun r => r.cleanConfidence)) (jsOrNum d.trustScore 85)
      drift := 0
      status := "pass" },
    { mode := "Compressed"
      description := "JPEG compression at 60% quality"
      confidence := max 40 (cleanConfidence + compression)
      drift := compression
      status := if |compression| ≤ 10 then "pass" else "warning" },
    { mode := "Degraded"
      description := "Low-quality capture simulation"
      confidence := max 40 (cleanConfidence + degradation)
      drift := degradation
      status := if |degradation| ≤ 12 then "pass" else "warning" },
    { mode := "Motion"
      description := "Motion blur applied"
      confidence := max 40 (cleanConfidence + motion)
      drift := motion
      status := if |motion| ≤ 15 then "pass" else "warning" },
    { mode := "Noise"
      description := "Gaussian noise injection"
      confidence := max 40 (cleanConfidence + noise)
      drift := noise
      status := if |noise| ≤ 10 then "pass" else "warning" } ]

/-- `graphStats` (lines 547-552). -/
def graphStatsOf (d : AnalysisData) : GraphStats :=
  let keypoints := jsOrNum (d.graphStats.bind (fun g => g.keypointsDetected)) 24
  { keypointsDetected := keypoints
    edgeConnections := ((Int.floor (keypoints * 1.6) : ℤ) : ℚ)
    suspiciousNodes := jsOrNum (d.graphStats.bind (fun g => g.suspiciousNodes)) 0
    graphCoherence := jsOrNum (d.graphStats.bind (fun g => g.graphCoherence)) 90 }

/-- The `AnalysisResult` record literal of lines 482-558, with the
already-computed `multimodalConsistency` value plugged into its single field. -/
def mkResult (d : AnalysisData) (detectedMediaType : MediaType) (analysisTime : ℚ)
    (rng : ℕ → ℚ) (multimodalConsistency : MultimodalConsistencyResult) : AnalysisResult :=
  { trustScore := trustScoreOf d
    riskLevel := riskLevelOf (trustScoreOf d)
    verdict := jsOrStr d.verdict "Analysis Complete"
    analysisTime := ((round (analysisTime * 10) : ℤ) : ℚ) / 10
    mediaType := detectedMediaType
    uncertaintyFlag := uncertaintyFlagOf d
    uncertaintyReason := jsOrStr d.uncertaintyReason
      (if uncertaintyFlagOf d then "Score in uncertain range - manual review recommended" else "")
    ganFingerprints :=
      { detected := jsOrBool (d.ganFingerprints.bind (fun g => g.detected)) false
        patterns := jsOrList (d.ganFingerprints.bind (fun g => g.patterns)) []
        confidence := jsOrNum (d.ganFingerprints.bind (fun g => g.confidence)) 75 }
    textureAnalysis :=
      { laplacianVariance := jsOrStr (d.textureAnalysis.bind (fun t => t.laplacianVariance)) "normal"
        smoothnessAnomalies := jsOrBool (d.textureAnalysis.bind (fun t => t.smoothnessAnomalies)) false
        noiseConsistency := jsOrStr (d.textureAnalysis.bind (fun t => t.noiseConsistency)) "consistent" }
    metadataAnalysis :=
      { hasMetadata := (d.metadataAnalysis.bind (fun m => m.hasMetadata)).getD true
        suspicious := jsOrBool (d.metadataAnalysis.bind (fun m => m.suspicious)) false
        findings := jsOrList (d.metadataAnalysis.bind (fun m => m.findings)) [] }
    observations := observationsOf d
    robustnessTests := robustnessTestsOf d
    graphStats := graphStatsOf d
    heatmapRegions := heatmapRegionsOf d
    audioAnomalies := audioAnomaliesOf d
    frameAnalysis := frameAnalysisOf d rng
    modalityScores := modalityScoresOf d detectedMediaType
    multimodalConsistency := multimodalConsistency }

/-- The complete normalized result of the handler for a parsed model reply:
the consistency module is computed from the clamped trust score and the
modality scores and stored in the one dedicated field. -/
def buildResult (d : AnalysisData) (detectedMediaType : MediaType) (analysisTime : ℚ)
    (rng : ℕ → ℚ) : AnalysisResult :=
  mkResult d detectedMediaType analysisTime rng
    (multimodalConsistencyOf (trustScoreOf d) detectedMediaType (modalityScoresOf d detectedMediaType))

/-! ## The HTTP handler -/

/-- The JSON body of the request (`{ imageBase64, mediaType }`). -/
structure RequestBody where
  imageBase64 : Option String
  mediaType : Option String
  deriving DecidableEq, Repr

/-- `mediaType === "video" ? "video" : mediaType === "audio" ? "audio" : "image"`
(line 123). -/
def detectMediaType (mediaType : Option String) : MediaType :=
  if mediaType = some "video" then MediaType.video
  else if mediaType = some "audio" then MediaType.audio
  else MediaType.image

/-- JS truthiness of an optional string (`undefined`, `null`, `""` falsy). -/
def strTruthy : Option String → Bool
  | none => false
  | some s => s != ""

/-- A handler response: the normalized result, an `{ error }` JSON with an
HTTP status, or the bare CORS preflight reply. -/
inductive HandlerResponse
  | success (result : AnalysisResult)
  | failure (status : ℕ) (message : String)
  | preflight
  deriving Repr

/-- Everything the handler's behaviour depends on.  The upstream fetch and
`JSON.parse` are outside the repository, so their outcomes are inputs:
`upstreamContent` is `aiResponse.choices?.[0]?.message?.content` and
`parsedAnalysis` the outcome of extracting and parsing the JSON embedded in
it (`none` = the parse threw).  `body = none` models `req.json()` throwing,
with the engine's message in `bodyErrorMessage`. -/
structure HandlerInput where
  method : String
  body : Option RequestBody
  bodyErrorMessage : String
  apiKey : Option String
  upstreamStatus : ℕ
  upstreamContent : Option String
  parsedAnalysis : Option AnalysisData
  analysisTime : ℚ
  rng : ℕ → ℚ

/-- The `serve` callback of index.ts.  Thrown errors are routed through the
`catch` into a 500 response carrying the error message, which is what the
corresponding `failure 500` cases build directly.  `response.ok` of `fetch`
is `200 ≤ status < 300`. -/
def handler (i : HandlerInput) : HandlerResponse :=
  if i.method = "OPTIONS" then HandlerResponse.preflight
  else
    match i.body with
    | none => HandlerResponse.failure 500 i.bodyErrorMessage
    | some body =>
      if !strTruthy body.imageBase64 then
        HandlerResponse.failure 400 "No image data provided"
      else if !strTruthy i.apiKey then
        HandlerResponse.failure 500 "LOVABLE_API_KEY is not configured"
      else if ¬ (200 ≤ i.upstreamStatus ∧ i.upstreamStatus < 300) then
        if i.upstreamStatus = 429 then
          HandlerResponse.failure 429 "Rate limit exceeded. Please try again in a moment."
        else if i.upstreamStatus = 402 then
          HandlerResponse.failure 402 "AI credits exhausted. Please add credits to continue."
        else
          HandlerResponse.failure 500 ("AI gateway error: " ++ toString i.upstreamStatus)
      else if !strTruthy i.upstreamContent then
        HandlerResponse.failure 500 "No response from AI model"
      else
        match i.parsedAnalysis with
        | none => HandlerResponse.failure 500 "Failed to parse analysis results"
        | some analysisData =>
          HandlerResponse.success
            (buildResult analysisData (detectMediaType body.mediaType) i.analysisTime i.rng)

/-- A model reply whose `trustScore` is the legitimate value `0`. -/
def zeroTrustData : AnalysisData :=
  { emptyAnalysisData with trustScore := some 0 }

/-- A well-formed non-preflight request whose upstream call succeeded. -/
def sampleHandlerInput : HandlerInput :=
  { method := "POST"
    body := some { imageBase64 := some "aGVsbG8=", mediaType := some "video" }
    bodyErrorMessage := ""
    apiKey := some "k"
    upstreamStatus := 200
    upstreamContent := some "\x7b\x7d"
    parsedAnalysis := some emptyAnalysisData
    analysisTime := 1
    rng := fun _ => 0 }

example :
    computeConsistencyCheck 80 MediaType.video (some [⟨"visual", 90⟩, ⟨"audio", 60⟩]) =
      { consistencyStatus := "inconsistent"
        visualScore := 90
        audioScore := some 60
        disagreement := 0.30
        confidenceModifier := -15
        adjustedConfidence := 65
        explanation := bandExplanation 0.30 } := by
  have ha : audioScoreOf (some [⟨"visual", 90⟩, ⟨"audio", 60⟩]) = some 60 := rfl
  have hv : visualScoreOf 80 (some [⟨"visual", 90⟩, ⟨"audio", 60⟩]) = 90 := rfl
  simp only [computeConsistencyCheck, ha, hv, multiModalResult]
  norm_num [bandStatus, bandModifier, HIGH_DISAGREEMENT, abs, max_def, min_def]
  decide

example :
    (computeConsistencyCheck 80 MediaType.image
      (some [⟨"visual", 90⟩, ⟨"audio", 60⟩])).consistencyStatus = "single_modality" := by
  have ha : audioScoreOf (some [⟨"visual", 90⟩, ⟨"audio", 60⟩]) = some 60 := rfl
  simp only [computeConsistencyCheck, ha]
  norm_num [singleModalityResult]

example :
    (computeConsistencyCheck 80 MediaType.video
      (some [⟨"visual", 80⟩, ⟨"audio", 60⟩])).confidenceModifier = -7 := by
  have ha : audioScoreOf (some [⟨"visual", 80⟩, ⟨"audio", 60⟩]) = some 60 := rfl
  have hv : visualScoreOf 80 (some [⟨"visual", 80⟩, ⟨"audio", 60⟩]) = 80 := rfl
  simp only [computeConsistencyCheck, ha, hv, multiModalResult]
  norm_num [bandModifier, HIGH_DISAGREEMENT, LOW_DISAGREEMENT, abs, max_def]
  decide

example :
    (computeConsistencyCheck 80 MediaType.video
      (some [⟨"visual", 70⟩, ⟨"audio", 60⟩])).confidenceModifier = 0 := by
  have ha : audioScoreOf (some [⟨"visual", 70⟩, ⟨"audio", 60⟩]) = some 60 := rfl
  have hv : visualScoreOf 80 (some [⟨"visual", 70⟩, ⟨"audio", 60⟩]) = 70 := rfl
  simp only [computeConsistencyCheck, ha, hv, multiModalResult]
  norm_num [bandModifier, HIGH_DISAGREEMENT, LOW_DISAGREEMENT, abs, max_def]
  decide

/-! ## Shared lemmas -/

theorem clamp_nonneg (x : ℚ) : 0 ≤ min 100 (max 0 x) :=
  le_min (by norm_num) (le_max_left 0 x)

theorem clamp_le_hundred (x : ℚ) : min 100 (max 0 x) ≤ 100 :=
  min_le_left _ _

theorem clamp_eq_self {x : ℚ} (h0 : 0 ≤ x) (h1 : x ≤ 100) :
    min 100 (max 0 x) = x := by
  rw [max_eq_right h0, min_eq_right h1]

theorem trustScoreOf_nonneg (d : AnalysisData) : 0 ≤ trustScoreOf d :=
  clamp_nonneg _

theorem trustScoreOf_le_hundred (d : AnalysisData) : trustScoreOf d ≤ 100 :=
  clamp_le_hundred _

theorem buildResult_multimodalConsistency (d : AnalysisData) (md : MediaType)
    (t : ℚ) (rng : ℕ → ℚ) :
    (buildResult d md t rng).multimodalConsistency =
      multimodalConsistencyOf (trustScoreOf d) md (modalityScoresOf d md) := rfl

theorem buildResult_trustScore (d : AnalysisData) (md : MediaType)
    (t : ℚ) (rng : ℕ → ℚ) :
    (buildResult d md t rng).trustScore = trustScoreOf d := rfl

/-- Property of the handler-inlined consistency module in the single-modality
case: whenever no audio modality is found, or the media type is image, it
returns the `single_modality` record with modifier `0` and the handler's trust
score as adjusted confidence. -/
theorem multimodalConsistencyOf_single (ts : ℚ) (md : MediaType) (mss : List ModalityScore)
    (h : (mss.find? (fun m => m.modality == "audio")).map (fun m => m.score) = none ∨
      md = MediaType.image) :
    multimodalConsistencyOf ts md mss =
      singleModalityResult
        (((mss.find? (fun m => m.modality == "visual")).map (fun m => m.score)).getD ts) ts := by
  rcases hfind : (mss.find? (fun m => m.modality == "audio")).map (fun m => m.score) with _ | a
  · simp [multimodalConsistencyOf, hfind]
  · rcases h with h | h
    · rw [hfind] at h; cases h
    · subst h
      simp [multimodalConsistencyOf, hfind]

/-- Case analysis for the client helper: single-modality shape. -/
theorem ccc_single (ts : ℚ) {mt : MediaType} {ms : Option (List ModalityInput)}
    (h : audioScoreOf ms = none ∨ mt = MediaType.image) :
    computeConsistencyCheck ts mt ms =
      singleModalityResult (visualScoreOf ts ms) (min 100 (max 0 ts)) := by
  rcases hfind : audioScoreOf ms with _ | a
  · simp [computeConsistencyCheck, hfind]
  · rcases h with h | h
    · rw [hfind] at h; cases h
    · subst h
      simp [computeConsistencyCheck, hfind]

/-- Case analysis for the client helper: multi-modal shape. -/
theorem ccc_multi (ts : ℚ) {mt : MediaType} {ms : Option (List ModalityInput)} {a : ℚ}
    (hmt : mt ≠ MediaType.image) (ha : audioScoreOf ms = some a) :
    computeConsistencyCheck ts mt ms = multiModalResult ts (visualScoreOf ts ms) a := by
  simp [computeConsistencyCheck, ha, hmt]

/-- Case analysis for the handler-inlined module: multi-modal shape. -/
theorem mco_multi (ts : ℚ) {md : MediaType} {mss : List ModalityScore} {a : ℚ}
    (hmt : md ≠ MediaType.image)
    (ha : (mss.find? (fun m => m.modality == "audio")).map (fun m => m.score) = some a) :
    multimodalConsistencyOf ts md mss =
      multiModalResult ts
        (((mss.find? (fun m => m.modality == "visual")).map (fun m => m.score)).getD ts) a := by
  simp [multimodalConsistencyOf, ha, hmt]

/-! ## Claims -/

/-- C1: for every analysis whose media is image-type, or whose audio score is
missing, the multimodal consistency result has status `"single_modality"` and
confidence modifier `0`, regardless of the visual and audio scores, and the
adjusted confidence equals the clamped trust score.  Stated for the client
helper `computeConsistencyCheck` (arbitrary trust score, clamped on output)
and for the edge handler's result on image media (whose trust score is
already clamped). -/
theorem single_modality_of_image_or_no_audio
    (trustScore : ℚ) (mediaType : MediaType) (modalityScores : Option (List ModalityInput))
    (h : audioScoreOf modalityScores = none ∨ mediaType = MediaType.image) :
    ((computeConsistencyCheck trustScore mediaType modalityScores).consistencyStatus =
        "single_modality" ∧
      (computeConsistencyCheck trustScore mediaType modalityScores).confidenceModifier = 0 ∧
      (computeConsistencyCheck trustScore mediaType modalityScores).adjustedConfidence =
        min 100 (max 0 trustScore)) ∧
    ∀ (d : AnalysisData) (t : ℚ) (rng : ℕ → ℚ),
      (buildResult d MediaType.image t rng).multimodalConsistency.consistencyStatus =
          "single_modality" ∧
      (buildResult d MediaType.image t rng).multimodalConsistency.confidenceModifier = 0 ∧
      (buildResult d MediaType.image t rng).multimodalConsistency.adjustedConfidence =
        (buildResult d MediaType.image t rng).trustScore := by
  constructor
  · rcases hfind : audioScoreOf modalityScores with _ | a
    · simp [computeConsistencyCheck, hfind, singleModalityResult]
    · rcases h with h | h
      · rw [hfind] at h; cases h
      · subst h
        simp [computeConsistencyCheck, hfind, singleModalityResult]
  · intro d t rng
    rw [buildResult_multimodalConsistency, buildResult_trustScore,
      multimodalConsistencyOf_single _ _ _ (Or.inr rfl)]
    exact ⟨rfl, rfl, rfl⟩

theorem single_modality_of_image_or_no_audio_witness :
    (audioScoreOf (some [⟨"visual", 90⟩]) = none ∨ MediaType.video = MediaType.image) ∧
    (computeConsistencyCheck 30 MediaType.video
      (some [⟨"visual", 90⟩])).consistencyStatus = "single_modality" :=
  ⟨Or.inl rfl,
    ((single_modality_of_image_or_no_audio 30 MediaType.video
      (some [⟨"visual", 90⟩]) (Or.inl rfl)).1).1⟩

/-- C3: on multi-modal media, when the normalized disagreement between the
visual and the audio score (both in [0,100]) is at least 0.30, the
consistency status is `"inconsistent"` and the confidence modifier is −15. -/
theorem high_disagreement_inconsistent
    (trustScore audio : ℚ) (mediaType : MediaType)
    (modalityScores : Option (List ModalityInput))
    (hmt : mediaType ≠ MediaType.image)
    (ha : audioScoreOf modalityScores = some audio)
    (hv0 : 0 ≤ visualScoreOf trustScore modalityScores)
    (hv1 : visualScoreOf trustScore modalityScores ≤ 100)
    (ha0 : 0 ≤ audio) (ha1 : audio ≤ 100)
    (hd : 0.30 ≤ |visualScoreOf trustScore modalityScores / 100 - audio / 100|) :
    (computeConsistencyCheck trustScore mediaType modalityScores).consistencyStatus =
      "inconsistent" ∧
    (computeConsistencyCheck trustScore mediaType modalityScores).confidenceModifier = -15 := by
  simp only [computeConsistencyCheck, ha]
  rw [if_neg hmt]
  constructor
  · simp [multiModalResult, bandStatus, HIGH_DISAGREEMENT, hd]
  · simp [multiModalResult, bandModifier, HIGH_DISAGREEMENT, hd]

theorem high_disagreement_inconsistent_witness :
    (0.30 : ℚ) ≤ |visualScoreOf 70 (some [⟨"visual", 90⟩, ⟨"audio", 20⟩]) / 100 - 20 / 100| ∧
    (computeConsistencyCheck 70 MediaType.video
      (some [⟨"visual", 90⟩, ⟨"audio", 20⟩])).confidenceModifier = -15 :=
  ⟨by norm_num [visualScoreOf, List.find?, abs, max_def],
    (high_disagreement_inconsistent 70 20 MediaType.video
      (some [⟨"visual", 90⟩, ⟨"audio", 20⟩]) (by decide) rfl
      (by norm_num [visualScoreOf, List.find?])
      (by norm_num [visualScoreOf, List.find?])
      (by norm_num) (by norm_num)
      (by norm_num [visualScoreOf, List.find?, abs, max_def])).2⟩

/-- C4: on multi-modal media, when the normalized disagreement between the
visual and the audio score (both in [0,100]) lies in [0.15, 0.30), the
consistency status is `"partially_consistent"` and the modifier is −7. -/
theorem mid_disagreement_partially_consistent
    (trustScore audio : ℚ) (mediaType : MediaType)
    (modalityScores : Option (List ModalityInput))
    (hmt : mediaType ≠ MediaType.image)
    (ha : audioScoreOf modalityScores = some audio)
    (hv0 : 0 ≤ visualScoreOf trustScore modalityScores)
    (hv1 : visualScoreOf trustScore modalityScores ≤ 100)
    (ha0 : 0 ≤ audio) (ha1 : audio ≤ 100)
    (hd1 : 0.15 ≤ |visualScoreOf trustScore modalityScores / 100 - audio / 100|)
    (hd2 : |visualScoreOf trustScore modalityScores / 100 - audio / 100| < 0.30) :
    (computeConsistencyCheck trustScore mediaType modalityScores).consistencyStatus =
      "partially_consistent" ∧
    (computeConsistencyCheck trustScore mediaType modalityScores).confidenceModifier = -7 := by
  simp only [computeConsistencyCheck, ha]
  rw [if_neg hmt]
  constructor
  · simp [multiModalResult, bandStatus, HIGH_DISAGREEMENT, LOW_DISAGREEMENT, hd1, hd2.not_le]
  · simp [multiModalResult, bandModifier, HIGH_DISAGREEMENT, LOW_DISAGREEMENT, hd1, hd2.not_le]

theorem mid_disagreement_partially_consistent_witness :
    (0.15 : ℚ) ≤ |visualScoreOf 70 (some [⟨"visual", 80⟩, ⟨"audio", 60⟩]) / 100 - 60 / 100| ∧
    (computeConsistencyCheck 70 MediaType.video
      (some [⟨"visual", 80⟩, ⟨"audio", 60⟩])).confidenceModifier = -7 :=
  ⟨by norm_num [visualScoreOf, List.find?, abs, max_def],
    (mid_disagreement_partially_consistent 70 60 MediaType.video
      (some [⟨"visual", 80⟩, ⟨"audio", 60⟩]) (by decide) rfl
      (by norm_num [visualScoreOf, List.find?])
      (by norm_num [visualScoreOf, List.find?])
      (by norm_num) (by norm_num)
      (by norm_num [visualScoreOf, List.find?, abs, max_def])
      (by norm_num [visualScoreOf, List.find?, abs, max_def])).2⟩

/-- C5: on multi-modal media, when the normalized disagreement between the
visual and the audio score (both in [0,100]) is below 0.15, the consistency
status is `"consistent"` and the modifier is 0. -/
theorem low_disagreement_consistent
    (trustScore audio : ℚ) (mediaType : MediaType)
    (modalityScores : Option (List ModalityInput))
    (hmt : mediaType ≠ MediaType.image)
    (ha : audioScoreOf modalityScores = some audio)
    (hv0 : 0 ≤ visualScoreOf trustScore modalityScores)
    (hv1 : visualScoreOf trustScore modalityScores ≤ 100)
    (ha0 : 0 ≤ audio) (ha1 : audio ≤ 100)
    (hd : |visualScoreOf trustScore modalityScores / 100 - audio / 100| < 0.15) :
    (computeConsistencyCheck trustScore mediaType modalityScores).consistencyStatus =
      "consistent" ∧
    (computeConsistencyCheck trustScore mediaType modalityScores).confidenceModifier = 0 := by
  have hd2 : |visualScoreOf trustScore modalityScores / 100 - audio / 100| < 0.30 :=
    hd.trans (by norm_num)
  simp only [computeConsistencyCheck, ha]
  rw [if_neg hmt]
  constructor
  · simp [multiModalResult, bandStatus, HIGH_DISAGREEMENT, LOW_DISAGREEMENT,
      hd.not_le, hd2.not_le]
  · simp [multiModalResult, bandModifier, HIGH_DISAGREEMENT, LOW_DISAGREEMENT,
      hd.not_le, hd2.not_le]

theorem low_disagreement_consistent_witness :
    |visualScoreOf 70 (some [⟨"visual", 65⟩, ⟨"audio", 60⟩]) / 100 - 60 / 100| < (0.15 : ℚ) ∧
    (computeConsistencyCheck 70 MediaType.video
      (some [⟨"visual", 65⟩, ⟨"audio", 60⟩])).confidenceModifier = 0 :=
  ⟨by norm_num [visualScoreOf, List.find?, abs, max_def],
    (low_disagreement_consistent 70 60 MediaType.video
      (some [⟨"visual", 65⟩, ⟨"audio", 60⟩]) (by decide) rfl
      (by norm_num [visualScoreOf, List.find?])
      (by norm_num [visualScoreOf, List.find?])
      (by norm_num) (by norm_num)
      (by norm_num [visualScoreOf, List.find?, abs, max_def])).2⟩

/-- C6: for every consistency-check outcome — of the client helper at any
trust score, and of the edge handler — `adjustedConfidence` equals
`clamp(trustScore + confidenceModifier, 0, 100)`, and in particular always
lies in [0,100]. -/
theorem adjustedConfidence_eq_clamp :
    (∀ (trustScore : ℚ) (mediaType : MediaType)
        (modalityScores : Option (List ModalityInput)),
      (computeConsistencyCheck trustScore mediaType modalityScores).adjustedConfidence =
        min 100 (max 0 (trustScore +
          (computeConsistencyCheck trustScore mediaType modalityScores).confidenceModifier)) ∧
      0 ≤ (computeConsistencyCheck trustScore mediaType modalityScores).adjustedConfidence ∧
      (computeConsistencyCheck trustScore mediaType modalityScores).adjustedConfidence ≤ 100) ∧
    (∀ (d : AnalysisData) (md : MediaType) (t : ℚ) (rng : ℕ → ℚ),
      (buildResult d md t rng).multimodalConsistency.adjustedConfidence =
        min 100 (max 0 ((buildResult d md t rng).trustScore +
          (buildResult d md t rng).multimodalConsistency.confidenceModifier)) ∧
      0 ≤ (buildResult d md t rng).multimodalConsistency.adjustedConfidence ∧
      (buildResult d md t rng).multimodalConsistency.adjustedConfidence ≤ 100) := by
  constructor
  · intro ts mt ms
    rcases hfind : audioScoreOf ms with _ | a
    · rw [ccc_single ts (Or.inl hfind)]
      refine ⟨?_, clamp_nonneg ts, clamp_le_hundred ts⟩
      show min 100 (max 0 ts) = min 100 (max 0 (ts + 0))
      rw [add_zero]
    · by_cases hmt : mt = MediaType.image
      · rw [ccc_single ts (Or.inr hmt)]
        refine ⟨?_, clamp_nonneg ts, clamp_le_hundred ts⟩
        show min 100 (max 0 ts) = min 100 (max 0 (ts + 0))
        rw [add_zero]
      · rw [ccc_multi ts hmt hfind]
        exact ⟨rfl, clamp_nonneg _, clamp_le_hundred _⟩
  · intro d md t rng
    rw [buildResult_multimodalConsistency, buildResult_trustScore]
    have h0 : 0 ≤ trustScoreOf d := trustScoreOf_nonneg d
    have h1 : trustScoreOf d ≤ 100 := trustScoreOf_le_hundred d
    rcases hfind : ((modalityScoresOf d md).find? (fun m => m.modality == "audio")).map
        (fun m => m.score) with _ | a
    · rw [multimodalConsistencyOf_single _ _ _ (Or.inl hfind)]
      refine ⟨?_, h0, h1⟩
      show trustScoreOf d = min 100 (max 0 (trustScoreOf d + 0))
      rw [add_zero, clamp_eq_self h0 h1]
    · by_cases hmt : md = MediaType.image
      · rw [multimodalConsistencyOf_single _ _ _ (Or.inr hmt)]
        refine ⟨?_, h0, h1⟩
        show trustScoreOf d = min 100 (max 0 (trustScoreOf d + 0))
        rw [add_zero, clamp_eq_self h0 h1]
      · rw [mco_multi _ hmt hfind]
        exact ⟨rfl, clamp_nonneg _, clamp_le_hundred _⟩

/-- C7: for visual score 90 and audio score 60 on multi-modal media, the
disagreement is exactly 0.30, the status is `"inconsistent"`, the modifier is
−15, and the adjusted confidence is `max 0 (trustScore − 15)` for a trust
score already clamped to [0,100]. -/
theorem example_90_60_inconsistent
    (trustScore : ℚ) (h0 : 0 ≤ trustScore) (h1 : trustScore ≤ 100)
    (mediaType : MediaType) (hmt : mediaType ≠ MediaType.image)
    (modalityScores : Option (List ModalityInput))
    (hv : visualScoreOf trustScore modalityScores = 90)
    (ha : audioScoreOf modalityScores = some 60) :
    (computeConsistencyCheck trustScore mediaType modalityScores).disagreement = 0.30 ∧
    (computeConsistencyCheck trustScore mediaType modalityScores).consistencyStatus =
      "inconsistent" ∧
    (computeConsistencyCheck trustScore mediaType modalityScores).confidenceModifier = -15 ∧
    (computeConsistencyCheck trustScore mediaType modalityScores).adjustedConfidence =
      max 0 (trustScore - 15) := by
  have habs : |(90 : ℚ) / 100 - 60 / 100| = 0.30 := by norm_num [abs, max_def]
  have hstat : bandStatus 0.30 = "inconsistent" := by
    norm_num [bandStatus, HIGH_DISAGREEMENT]
  have hband : bandModifier 0.30 = -15 := by
    norm_num [bandModifier, HIGH_DISAGREEMENT]
  rw [ccc_multi trustScore hmt ha, hv]
  unfold multiModalResult
  simp only [habs, hstat, hband, eq_self_iff_true, true_and]
  have hle : max 0 (trustScore + -15) ≤ 100 :=
    max_le (by norm_num) (by linarith)
  rw [min_eq_right hle, sub_eq_add_neg]

theorem example_90_60_inconsistent_witness :
    visualScoreOf 80 (some [⟨"visual", 90⟩, ⟨"audio", 60⟩]) = 90 ∧
    audioScoreOf (some [⟨"visual", 90⟩, ⟨"audio", 60⟩]) = some 60 ∧
    (computeConsistencyCheck 80 MediaType.video
      (some [⟨"visual", 90⟩, ⟨"audio", 60⟩])).disagreement = 0.30 :=
  ⟨rfl, rfl,
    (example_90_60_inconsistent 80 (by norm_num) (by norm_num) MediaType.video
      (by decide) (some [⟨"visual", 90⟩, ⟨"audio", 60⟩]) rfl rfl).1⟩

/-- C2: `value || fallback` defaulting replaces a model-supplied 0 by the
fallback: `jsOrNum (some 0) fallback = fallback` for every fallback, and in
particular a model reply with `trustScore = 0` normalizes to the fallback
trust score 50 (not 0); likewise a `ganFingerprints.confidence` of 0 becomes
the fallback 75. -/
theorem zero_trustScore_replaced_by_fallback
    (d : AnalysisData) (md : MediaType) (t : ℚ) (rng : ℕ → ℚ)
    (h : d.trustScore = some 0) :
    (buildResult d md t rng).trustScore = 50 ∧
    (∀ fallback : ℚ, jsOrNum (some 0) fallback = fallback) ∧
    ((d.ganFingerprints.bind fun g => g.confidence) = some 0 →
      (buildResult d md t rng).ganFingerprints.confidence = 75) := by
  refine ⟨?_, fun fallback => by simp [jsOrNum], fun hg => ?_⟩
  · rw [buildResult_trustScore]
    rw [show trustScoreOf d = min 100 (max 0 (jsOrNum d.trustScore 50)) from rfl, h]
    norm_num [jsOrNum, max_def, min_def]
  · have hgan : (buildResult d md t rng).ganFingerprints.confidence =
        jsOrNum (d.ganFingerprints.bind fun g => g.confidence) 75 := rfl
    rw [hgan, hg]
    simp [jsOrNum]

theorem zero_trustScore_replaced_by_fallback_witness :
    zeroTrustData.trustScore = some 0 ∧
    (buildResult zeroTrustData MediaType.image 0 (fun _ => 0)).trustScore = 50 :=
  ⟨rfl, (zero_trustScore_replaced_by_fallback zeroTrustData MediaType.image 0
    (fun _ => 0) rfl).1⟩

/-- C9: the risk level of every successful response is derived from the
clamped trust score by the fixed thresholds: `"low"` exactly when
`trustScore ≥ 70`, `"medium"` exactly when `40 ≤ trustScore < 70`, and
`"high"` exactly when `trustScore < 40`. -/
theorem riskLevel_thresholds (d : AnalysisData) (md : MediaType) (t : ℚ) (rng : ℕ → ℚ) :
    ((buildResult d md t rng).riskLevel = "low" ↔
      70 ≤ (buildResult d md t rng).trustScore) ∧
    ((buildResult d md t rng).riskLevel = "medium" ↔
      40 ≤ (buildResult d md t rng).trustScore ∧ (buildResult d md t rng).trustScore < 70) ∧
    ((buildResult d md t rng).riskLevel = "high" ↔
      (buildResult d md t rng).trustScore < 40) := by
  have hr : (buildResult d md t rng).riskLevel = riskLevelOf (trustScoreOf d) := rfl
  rw [hr, buildResult_trustScore]
  unfold riskLevelOf
  split_ifs with h1 h2
  · exact ⟨⟨fun _ => h1, fun _ => rfl⟩,
      ⟨fun hc => absurd hc (by decide), fun hc => absurd h1 hc.2.not_le⟩,
      ⟨fun hc => absurd hc (by decide),
        fun hc => absurd h1 ((hc.trans_le (by norm_num)).not_le)⟩⟩
  · rw [not_le] at h1
    exact ⟨⟨fun hc => absurd hc (by decide), fun hc => absurd hc h1.not_le⟩,
      ⟨fun _ => ⟨h2, h1⟩, fun _ => rfl⟩,
      ⟨fun hc => absurd hc (by decide), fun hc => absurd h2 hc.not_le⟩⟩
  · rw [not_le] at h1 h2
    exact ⟨⟨fun hc => absurd hc (by decide), fun hc => absurd hc h1.not_le⟩,
      ⟨fun hc => absurd hc (by decide), fun hc => absurd hc.1 h2.not_le⟩,
      ⟨fun _ => h2, fun _ => rfl⟩⟩

/-- C10: the multimodal consistency check is read-only with respect to the
rest of the result: the result record is built from the model reply, the
media type, the time and the random stream alone, with the consistency value
plugged into its one dedicated field — swapping that value changes no other
field; the consistency module reads only the clamped trust score and the
modality scores, both of which the final record carries unchanged. -/
theorem consistency_check_frame_property (d : AnalysisData) (md : MediaType)
    (t : ℚ) (rng : ℕ → ℚ) (mc mc2 : MultimodalConsistencyResult) :
    mkResult d md t rng mc = { mkResult d md t rng mc2 with multimodalConsistency := mc } ∧
    (mkResult d md t rng mc).multimodalConsistency = mc ∧
    buildResult d md t rng = mkResult d md t rng
      (multimodalConsistencyOf (trustScoreOf d) md (modalityScoresOf d md)) ∧
    (buildResult d md t rng).trustScore = trustScoreOf d ∧
    (buildResult d md t rng).modalityScores = modalityScoresOf d md :=
  ⟨rfl, rfl, rfl, rfl, rfl⟩

/-- C8: every non-preflight response of the analyze-media handler is either
the normalized `AnalysisResult`, or an error whose status is one of 400
(missing image data), 429 (upstream 429 passthrough), 402 (upstream 402
passthrough) or 500 (every other failure); no other statuses occur and no
partial result accompanies a failure. -/
theorem handler_status_classification (i : HandlerInput) (hm : i.method ≠ "OPTIONS") :
    ((∃ r, handler i = HandlerResponse.success r) ∨
      ∃ s m, handler i = HandlerResponse.failure s m ∧
        (s = 400 ∨ s = 402 ∨ s = 429 ∨ s = 500)) ∧
    ∀ s m, handler i = HandlerResponse.failure s m →
      (s = 400 ∨ s = 402 ∨ s = 429 ∨ s = 500) ∧
      (s = 400 → ∃ b, i.body = some b ∧ strTruthy b.imageBase64 = false) ∧
      (s = 429 → i.upstreamStatus = 429) ∧
      (s = 402 → i.upstreamStatus = 402) := by
  cases hb : i.body with
  | none =>
    simp only [handler, hb]
    rw [if_neg hm]
    refine ⟨Or.inr ⟨500, i.bodyErrorMessage, rfl, by omega⟩, ?_⟩
    intro s m hsm
    injection hsm with hs _
    subst hs
    exact ⟨by omega, fun h => absurd h (by omega), fun h => absurd h (by omega),
      fun h => absurd h (by omega)⟩
  | some b =>
    simp only [handler, hb]
    rw [if_neg hm]
    by_cases h1 : strTruthy b.imageBase64
    · rw [if_neg (by simp [h1])]
      by_cases h2 : strTruthy i.apiKey
      · rw [if_neg (by simp [h2])]
        by_cases h3 : 200 ≤ i.upstreamStatus ∧ i.upstreamStatus < 300
        · rw [if_neg (not_not_intro h3)]
          by_cases h4 : strTruthy i.upstreamContent
          · rw [if_neg (by simp [h4])]
            cases hp : i.parsedAnalysis with
            | none =>
              refine ⟨Or.inr ⟨500, _, rfl, by omega⟩, ?_⟩
              intro s m hsm
              injection hsm with hs _
              subst hs
              exact ⟨by omega, fun h => absurd h (by omega),
                fun h => absurd h (by omega), fun h => absurd h (by omega)⟩
            | some analysisData =>
              refine ⟨Or.inl ⟨_, rfl⟩, ?_⟩
              intro s m hsm
              cases hsm
          · rw [if_pos (by simpa using h4)]
            refine ⟨Or.inr ⟨500, _, rfl, by omega⟩, ?_⟩
            intro s m hsm
            injection hsm with hs _
            subst hs
            exact ⟨by omega, fun h => absurd h (by omega),
              fun h => absurd h (by omega), fun h => absurd h (by omega)⟩
        · rw [if_pos h3]
          by_cases h5 : i.upstreamStatus = 429
          · rw [if_pos h5]
            refine ⟨Or.inr ⟨429, _, rfl, by omega⟩, ?_⟩
            intro s m hsm
            injection hsm with hs _
            subst hs
            exact ⟨by omega, fun h => absurd h (by omega), fun _ => h5,
              fun h => absurd h (by omega)⟩
          · rw [if_neg h5]
            by_cases h6 : i.upstreamStatus = 402
            · rw [if_pos h6]
              refine ⟨Or.inr ⟨402, _, rfl, by omega⟩, ?_⟩
              intro s m hsm
              injection hsm with hs _
              subst hs
              exact ⟨by omega, fun h => absurd h (by omega),
                fun h => absurd h (by omega), fun _ => h6⟩
            · rw [if_neg h6]
              refine ⟨Or.inr ⟨500, _, rfl, by omega⟩, ?_⟩
              intro s m hsm
              injection hsm with hs _
              subst hs
              exact ⟨by omega, fun h => absurd h (by omega),
                fun h => absurd h (by omega), fun h => absurd h (by omega)⟩
      · rw [if_pos (by simpa using h2)]
        refine ⟨Or.inr ⟨500, _, rfl, by omega⟩, ?_⟩
        intro s m hsm
        injection hsm with hs _
        subst hs
        exact ⟨by omega, fun h => absurd h (by omega), fun h => absurd h (by omega),
          fun h => absurd h (by omega)⟩
    · rw [if_pos (by simpa using h1)]
      refine ⟨Or.inr ⟨400, _, rfl, by omega⟩, ?_⟩
      intro s m hsm
      injection hsm with hs _
      subst hs
      refine ⟨by omega, fun _ => ⟨b, rfl, ?_⟩, fun h => absurd h (by omega),
        fun h => absurd h (by omega)⟩
      simpa using h1

theorem handler_status_classification_witness :
    sampleHandlerInput.method ≠ "OPTIONS" ∧
    ((∃ r, handler sampleHandlerInput = HandlerResponse.success r) ∨
      ∃ s m, handler sampleHandlerInput = HandlerResponse.failure s m ∧
        (s = 400 ∨ s = 402 ∨ s = 429 ∨ s = 500)) :=
  ⟨by decide, (handler_status_classification sampleHandlerInput (by decide)).1⟩
